import Mathlib

/-
Verification development for the bonsol on-chain claim-and-settlement program.

The definitions below are a shallow embedding of the four action handlers in
src/onchain/bonsol/src/actions (execute.rs, claim.rs, status.rs, deploy.rs is
not needed by any claim).  Machine integers are modelled as Nat, byte strings
as List Nat, account addresses as Nat.  The flatbuffers accessor layer and the
ledger primitives (account checks, transfers, record creation and closure) live
in crates that are not part of the analysed sources; following the spec, which
treats them as an external Ledger Adapter with create/transfer/close
primitives, each handler returns a trace of the ledger primitives it invoked
(transfers performed, record closures with their exit code, callback
invocation) together with its control-flow result.  An error result means the
surrounding transaction is rolled back by the ledger; the trace still records
which primitives the handler had invoked before returning the error.
-/

namespace Bonsol

/-- Account address, an opaque 32-byte key modelled as Nat. -/
abbrev Pubkey := Nat

/-- Byte string modelled as a list of byte values. -/
abbrev Bytes := List Nat

/-- Error codes of the program (error.rs is not under the analysed sources;
the variant names are taken verbatim from their use sites in the action
handlers). -/
inductive ChannelError where
  | InvalidInstruction
  | InvalidExecutionAccount
  | InvalidExecutionAccountOwner
  | InvalidExecutionAccountData
  | InvalidExecutionId
  | InvalidRequesterAccount
  | InvalidPayerAccount
  | InvalidClaimerAccount
  | InvalidClaimAccount
  | InvalidDeploymentAccount
  | InvalidCallbackAccount
  | InvalidCallbackProgram
  | InvalidCallbackExtraAccounts
  | InputsDontMatch
  | InsufficientStake
  | ActiveClaimExists
  | ExecutionExpired
  | MaxBlockHeightRequired
  | InputDigestRequired
  | InvalidInputs
  | InvalidInputType
  | CannotBorrowData
  | VerifierError
deriving DecidableEq

deriving instance DecidableEq for Except

/-- Exit code written into a closed execution-request record.  Modelled from
the spec: the numeric values of `ExitCode::{Success, VerifyError, ProvingError}`
and of `ChannelError::ExecutionExpired as u8` live in the interface crate, not
under the analysed sources; only their distinctness matters, so they are
modelled as a sum type.  `Expired` is the code claim.rs writes on its expiry
branch. -/
inductive ClosureCode where
  | Success
  | VerifyError
  | ProvingError
  | Expired
deriving DecidableEq

/-- Result of running a handler: normal return, typed program error, or a
Rust panic (unwrap on None, out-of-range unchecked indexing). -/
inductive PResult (α : Type) where
  | ok (a : α)
  | err (e : ChannelError)
  | panicked
deriving DecidableEq

/-- The slice of solana AccountInfo the handlers inspect. -/
structure AccountInfo where
  key : Pubkey
  owner : Pubkey
  lamports : Nat
  data_len : Nat
  is_signer : Bool
  is_writable : Bool
deriving DecidableEq

/-- One ledger value transfer, source record to destination record. -/
structure Transfer where
  source : Pubkey
  dest : Pubkey
  amount : Nat
deriving DecidableEq

/-- Modelled from the spec: `check_writable_signer` lives in the assertions
module, not under the analysed sources; per spec section 4.1/4.2 it requires a
writable signer. -/
def check_writable_signer (a : AccountInfo) (e : ChannelError) : Except ChannelError Unit :=
  if a.is_writable = true ∧ a.is_signer = true then Except.ok () else Except.error e

/-- Modelled from the spec: `check_writeable` (assertions module, not under the
analysed sources) requires a writable account. -/
def check_writeable (a : AccountInfo) (e : ChannelError) : Except ChannelError Unit :=
  if a.is_writable = true then Except.ok () else Except.error e

/-- Modelled from the spec: `check_owner` (assertions module, not under the
analysed sources) requires the account's owner to be the given program. -/
def check_owner (a : AccountInfo) (k : Pubkey) (e : ChannelError) : Except ChannelError Unit :=
  if a.owner = k then Except.ok () else Except.error e

/-- Modelled from the spec: `check_key_match` (assertions module, not under the
analysed sources) requires the account's address to equal the given key. -/
def check_key_match (a : AccountInfo) (k : Pubkey) (e : ChannelError) : Except ChannelError Unit :=
  if a.key = k then Except.ok () else Except.error e

/-- Modelled from the spec: `ensure_0` (assertions module, not under the
analysed sources) requires the record to be unoccupied, i.e. empty data. -/
def ensure_0 (a : AccountInfo) (e : ChannelError) : Except ChannelError Unit :=
  if a.data_len = 0 then Except.ok () else Except.error e

/-- Input descriptor type tag of the wire schema (the flatbuffers enum is not
under the analysed sources; the handlers test only `PrivateLocal` and
`InputSet`, all remaining variants behave like `PublicData` there). -/
inductive InputType where
  | PublicData
  | PrivateLocal
  | InputSet
deriving DecidableEq

/-- One typed input descriptor of an execution request. -/
structure InputV1 where
  input_type : InputType
  data : Option Bytes
deriving DecidableEq

/-- One stored callback account entry: address plus a writability byte, as in
the flatbuffers table (`writable()` yields an integer that status.rs compares
with 0 and 1). -/
structure StoredAccount where
  pubkey : Pubkey
  writable : Nat
deriving DecidableEq

/-- Prover version tag.  Modelled from the spec: `ProverVersion` lives in the
interface crate, not under the analysed sources; per spec section 4.3 an
unrecognized version must verify as false, so the model keeps the one
recognized version and a catch-all. -/
inductive ProverVersion where
  | V1_0_1
  | UnknownVersion
deriving DecidableEq

/-- Parsed view of an ExecutionRequestV1 flatbuffer: exactly the accessors the
three handlers read. -/
structure ExecutionRequestV1 where
  execution_id : Option Nat
  image_id : Option Nat
  max_block_height : Nat
  tip : Nat
  verify_input_hash : Bool
  input_digest : Option Bytes
  forward_output : Bool
  callback_program_id : Option Pubkey
  callback_instruction_prefix_bytes : Option Bytes
  callback_extra_accounts : Option (List StoredAccount)
  prover_version : ProverVersion
  input : Option (List InputV1)
deriving DecidableEq

/-- Parsed view of a StatusV1 flatbuffer (the ephemeral status report). -/
structure StatusV1 where
  execution_id : Option Nat
  proof : Option Bytes
  execution_digest : Option Bytes
  input_digest : Option Bytes
  assumption_digest : Option Bytes
  committed_outputs : Option Bytes
  exit_code_system : Nat
  exit_code_user : Nat
deriving DecidableEq

/-- Parsed view of a ClaimV1 flatbuffer (the claim instruction payload). -/
structure ClaimV1 where
  execution_id : Option Nat
  block_commitment : Nat
deriving DecidableEq

/-- Persistent claim record.  Modelled from the spec: `ClaimStateV1` lives in
the interface crate, not under the analysed sources; per spec section 3 it
holds the holder and the commitment height, and `from_claim_ix` receives the
claimer key, the current height and the instruction's asserted commitment. -/
structure ClaimStateV1 where
  claimer : Pubkey
  block_commitment : Nat
  requested_commitment : Nat
deriving DecidableEq

/-- Constructor used by claim.rs: `ClaimStateV1::from_claim_ix(key,
current_block, ix_commitment)`.  Modelled from the spec: the stored
commitment height is the height at which the claim was taken (section 4.2). -/
def ClaimStateV1.from_claim_ix (k : Pubkey) (current_block : Nat) (rc : Nat) : ClaimStateV1 :=
  ⟨k, current_block, rc⟩

/-- Parsed view of a DeployV1 flatbuffer: execute.rs reads only the length of
its declared input list. -/
structure DeployV1 where
  inputs_len : Option Nat
deriving DecidableEq

/-- One caller-supplied trailing account of the settlement call (status.rs
reads only its key and writability). -/
structure ExtraAccount where
  key : Pubkey
  is_writable : Bool
deriving DecidableEq

/-- Inputs of one settlement call (status.rs `process_status_v1`).  Parse
results of the flatbuffers layer appear as Option values; `execPdaOk` models
the `check_pda` assertion on the derived execution address (spec section 2:
deterministic address derivation is a capability of the external ledger);
`verifyOutcome` is the external proof verifier's verdict for this call's
bundle (none models an internal verifier error), and `callbackInvokeOk`
whether the callback sub-call succeeds - status.rs ignores that result. -/
structure StatusCtx where
  requesterKey : Pubkey
  executorKey : Pubkey
  proverKey : Pubkey
  callbackProgramKey : Pubkey
  extraAccounts : List ExtraAccount
  st : Option StatusV1
  er : Option ExecutionRequestV1
  currentSlot : Nat
  programId : Pubkey
  execPdaOk : Bool
  verifyOutcome : Option Bool
  callbackInvokeOk : Bool
deriving DecidableEq

/-- Ledger-primitive trace of one settlement call: tip payouts performed,
request-record closure (refund target and exit code), and whether the callback
sub-call was dispatched. -/
structure StatusEffects where
  payouts : List Transfer
  closure : Option (Pubkey × ClosureCode)
  callbackInvoked : Bool
deriving DecidableEq

/-- Empty settlement trace. -/
def emptyStatusEffects : StatusEffects :=
  { payouts := [], closure := none, callbackInvoked := false }

/-- Embedding of status.rs `verify_with_prover`: dispatch on the prover
version; the one recognized version defers to the external verifier, any other
version verifies as false. -/
def verify_with_prover (er : ExecutionRequestV1) (ctx : StatusCtx) : Option Bool :=
  match er.prover_version with
  | ProverVersion.V1_0_1 => ctx.verifyOutcome
  | ProverVersion.UnknownVersion => some false

/-- The input-hash comparison computed (and then discarded) by status.rs lines
79-82: when `verify_input_hash` is set, the stored digest is mapped through
`check_bytes_match` against the asserted digest; the resulting value is never
consulted by the caller. -/
def input_hash_check (er : ExecutionRequestV1) (asserted : Bytes) :
    Option (Except ChannelError Unit) :=
  if er.verify_input_hash = true then
    er.input_digest.map fun x =>
      if x = asserted then Except.ok () else Except.error ChannelError.InputsDontMatch
  else none

/-- Per-entry validation loop of status.rs lines 117-137 over the zipped
supplied/stored callback account lists.  The writability test for a supplied
writable entry is the source's `!stored_a.writable() == 0`, i.e. the bitwise
negation of the stored byte compared with 0, here `255 - writable = 0` on the
byte range. -/
def check_callback_pairs : List (ExtraAccount × StoredAccount) → Except ChannelError Unit
  | [] => Except.ok ()
  | (a, s) :: rest =>
    if a.key ≠ s.pubkey then Except.error ChannelError.InvalidCallbackExtraAccounts
    else if a.is_writable = true then
      if 255 - s.writable = 0 then Except.error ChannelError.InvalidCallbackExtraAccounts
      else check_callback_pairs rest
    else
      if s.writable = 1 then Except.error ChannelError.InvalidCallbackExtraAccounts
      else check_callback_pairs rest

/-- Length check (status.rs lines 114-116) followed by the per-entry loop. -/
def check_callback_accounts (supplied : List ExtraAccount) (stored : List StoredAccount) :
    Except ChannelError Unit :=
  if supplied.length ≠ stored.length then Except.error ChannelError.InvalidCallbackExtraAccounts
  else check_callback_pairs (supplied.zip stored)

/-- Final effects of a successful settlement (status.rs lines 167-168):
`payout_tip` moves the tip from the execution record (accounts 1) to the
prover (accounts 2), then `cleanup_execution_account` closes the execution
record refunding its residual balance to the requester (accounts 0) with exit
code Success.  Modelled from the spec: `payout_tip` and
`cleanup_execution_account` (utilities module, not under the analysed sources)
are the Ledger Adapter's transfer and close-with-refund primitives of spec
section 2, recorded here as trace entries. -/
def payout_and_close (ctx : StatusCtx) (er : ExecutionRequestV1) (invoked : Bool) :
    StatusEffects × PResult Unit :=
  ({ payouts := [⟨ctx.executorKey, ctx.proverKey, er.tip⟩],
     closure := some (ctx.requesterKey, ClosureCode.Success),
     callbackInvoked := invoked }, PResult.ok ())

/-- Validation of the supplied extra accounts against a stored callback
account list (status.rs lines 113-138): a validation error aborts the call,
otherwise the callback is invoked (its failure is only logged) and the branch
ends in payout and Success closure. -/
def status_callback_validate (ctx : StatusCtx) (er : ExecutionRequestV1)
    (stored : List StoredAccount) : StatusEffects × PResult Unit :=
  match check_callback_accounts ctx.extraAccounts stored with
  | Except.error e => (emptyStatusEffects, PResult.err e)
  | Except.ok _ =>
    let _invoke_result := ctx.callbackInvokeOk
    payout_and_close ctx er true

/-- Verified-branch of status.rs (lines 87-168): optional callback dispatch
guarded by the callback-program account differing from this program and a
stored instruction prefix being present; the stored callback program id (with
this program as default) must match the supplied callback account; when a
stored extra-account list exists it is validated; a callback invocation
failure is only logged, so the branch always ends in payout and Success
closure once validation passed. -/
def status_verified (ctx : StatusCtx) (er : ExecutionRequestV1) : StatusEffects × PResult Unit :=
  if ctx.callbackProgramKey ≠ ctx.programId ∧
      er.callback_instruction_prefix_bytes.isSome = true then
    if er.callback_program_id.getD ctx.programId = ctx.callbackProgramKey then
      match er.callback_extra_accounts with
      | some stored => status_callback_validate ctx er stored
      | none =>
        let _invoke_result := ctx.callbackInvokeOk
        payout_and_close ctx er true
    else (emptyStatusEffects, PResult.err ChannelError.InvalidCallbackProgram)
  else payout_and_close ctx er false

/-- Core of status.rs after the instruction, execution id and execution
request have been obtained (lines 58-177): the proof field counts as present
only when it is exactly 256 bytes long; expiry aborts with an error before the
report fields are examined; an incomplete report closes the request with
ProvingError; otherwise the discarded input-hash comparison is computed, the
proof is verified, and the call ends in the verified branch or in a
VerifyError closure. -/
def status_core (ctx : StatusCtx) (st : StatusV1) (er : ExecutionRequestV1) :
    StatusEffects × PResult Unit :=
  if er.max_block_height < ctx.currentSlot then
    (emptyStatusEffects, PResult.err ChannelError.ExecutionExpired)
  else
    match st.proof.filter (fun x => x.length == 256), st.execution_digest,
        st.assumption_digest, st.input_digest, st.committed_outputs with
    | some proof, some _exed, some _asud, some input_digest, some _co =>
      if proof.length = 256 then
        let _discarded := input_hash_check er input_digest
        match verify_with_prover er ctx with
        | none => (emptyStatusEffects, PResult.err ChannelError.VerifierError)
        | some verified =>
          if verified = true then status_verified ctx er
          else
            ({ payouts := [],
               closure := some (ctx.requesterKey, ClosureCode.VerifyError),
               callbackInvoked := false }, PResult.ok ())
      else (emptyStatusEffects, PResult.err ChannelError.InvalidInstruction)
    | _, _, _, _, _ =>
      ({ payouts := [],
         closure := some (ctx.requesterKey, ClosureCode.ProvingError),
         callbackInvoked := false }, PResult.ok ())

/-- Embedding of status.rs `process_status_v1`: parse the nested status
flatbuffer, unwrap the execution id (a missing id panics at the seed
construction of line 50), check the derived execution address, parse the
execution request from the executor account, then run the core. -/
def process_status_v1 (ctx : StatusCtx) : StatusEffects × PResult Unit :=
  match ctx.st with
  | none => (emptyStatusEffects, PResult.err ChannelError.InvalidInstruction)
  | some st =>
    match st.execution_id with
    | none => (emptyStatusEffects, PResult.panicked)
    | some _eid =>
      if ctx.execPdaOk = true then
        match ctx.er with
        | none => (emptyStatusEffects, PResult.err ChannelError.InvalidExecutionAccount)
        | some er => status_core ctx st er
      else (emptyStatusEffects, PResult.err ChannelError.InvalidExecutionAccount)

/-- The in-memory claim metadata built by claim.rs `build_claim`. -/
structure ClaimMeta where
  execution_id : Nat
  block_commitment : Nat
  existing_claim : Bool
  stake : Nat
  expired : Bool
deriving DecidableEq

/-- Inputs of one claim call (claim.rs `process_claim_v1`): the five accounts
(executor = execution record, requester, claim record, claimer, payer), the
claim payload, the parse of the execution record, the parse of an existing
claim record, the current height, and the two derived-address checks. -/
structure ClaimCtx where
  executorAcct : AccountInfo
  requesterAcct : AccountInfo
  claimAcct : AccountInfo
  claimerAcct : AccountInfo
  payerAcct : AccountInfo
  cl : Option ClaimV1
  execReq : Option ExecutionRequestV1
  existingClaimData : Option ClaimStateV1
  currentSlot : Nat
  programId : Pubkey
  systemProgramId : Pubkey
  execPdaOk : Bool
  claimPdaOk : Bool
deriving DecidableEq

/-- Ledger-primitive trace of one claim call: whether the claim account was
created, the transfers performed in order, the claim state written, and the
execution-record closure. -/
structure ClaimEffects where
  createdClaimAccount : Bool
  transfers : List Transfer
  savedClaim : Option ClaimStateV1
  closure : Option (Pubkey × ClosureCode)
deriving DecidableEq

/-- Empty claim trace. -/
def emptyClaimEffects : ClaimEffects :=
  { createdClaimAccount := false, transfers := [], savedClaim := none, closure := none }

/-- Embedding of claim.rs `check_accounts_claim`: payer and claimer writable
signers, claim and execution accounts writable, execution account owned by
this program. -/
def check_accounts_claim (ctx : ClaimCtx) : Except ChannelError Unit := do
  check_writable_signer ctx.payerAcct ChannelError.InvalidPayerAccount
  check_writable_signer ctx.claimerAcct ChannelError.InvalidClaimerAccount
  check_writeable ctx.claimAcct ChannelError.InvalidClaimAccount
  check_writeable ctx.executorAcct ChannelError.InvalidExecutionAccount
  check_owner ctx.executorAcct ctx.programId ChannelError.InvalidExecutionAccountOwner

/-- Embedding of claim.rs `build_claim` (lines 46-108): unwrap the execution
id, check the execution address, parse the execution record, match the stored
execution id, require the claimer's balance to cover the tip, flag expiry when
the stored max height is below the current height, set stake to tip / 2, check
the claim address, and either create the claim account (when empty and
system-owned) or require it to be program-owned and flag an existing claim.
The returned Bool records whether the claim account was created. -/
def build_claim (ctx : ClaimCtx) (cl : ClaimV1) : PResult (ClaimMeta × Bool) :=
  match cl.execution_id with
  | none => PResult.panicked
  | some eid =>
    if ctx.execPdaOk = true then
      match ctx.execReq with
      | none => PResult.err ChannelError.InvalidExecutionAccountData
      | some er =>
        if er.execution_id ≠ some eid then PResult.err ChannelError.InvalidExecutionId
        else if ctx.claimerAcct.lamports < er.tip then
          PResult.err ChannelError.InsufficientStake
        else
          if ctx.claimPdaOk = true then
            if ctx.claimAcct.data_len = 0 ∧ ctx.claimAcct.owner = ctx.systemProgramId then
              PResult.ok
                (⟨eid, cl.block_commitment, false, er.tip / 2,
                  er.max_block_height < ctx.currentSlot⟩, true)
            else if ctx.claimAcct.owner ≠ ctx.programId then
              PResult.err ChannelError.InvalidClaimAccount
            else
              PResult.ok
                (⟨eid, cl.block_commitment, true, er.tip / 2,
                  er.max_block_height < ctx.currentSlot⟩, false)
          else PResult.err ChannelError.InvalidClaimAccount
    else PResult.err ChannelError.InvalidExecutionAccount

/-- Embedding of claim.rs `process_claim_v1` (lines 110-167).  On expiry the
execution record is closed with the Expired code refunding to the claimer
(accounts 3).  On an existing claim the stake amount is first transferred out
of the claim record to the claimer (accounts 3), then the window is checked:
if elapsed, the new claim state is saved and the new stake escrowed from the
claimer; otherwise the call errors with ActiveClaimExists.  On a first claim
the stake is escrowed from the claimer and the claim state saved.  Transfers
and the closure are ledger primitives recorded in the trace (modelled from the
spec, section 2, as the utilities module is not under the analysed sources). -/
def process_claim_v1 (ctx : ClaimCtx) : ClaimEffects × PResult Unit :=
  match check_accounts_claim ctx with
  | Except.error e => (emptyClaimEffects, PResult.err e)
  | Except.ok _ =>
    match ctx.cl with
    | none => (emptyClaimEffects, PResult.err ChannelError.InvalidInstruction)
    | some cl =>
      if cl.execution_id = none then (emptyClaimEffects, PResult.err ChannelError.InvalidInstruction)
      else
        match build_claim ctx cl with
        | PResult.panicked => (emptyClaimEffects, PResult.panicked)
        | PResult.err e => (emptyClaimEffects, PResult.err e)
        | PResult.ok (meta, created) =>
          if meta.expired = true then
            ({ emptyClaimEffects with
               createdClaimAccount := created,
               closure := some (ctx.claimerAcct.key, ClosureCode.Expired) }, PResult.ok ())
          else if meta.existing_claim = true then
            match ctx.existingClaimData with
            | none =>
              ({ emptyClaimEffects with createdClaimAccount := created },
               PResult.err ChannelError.InvalidClaimAccount)
            | some current_claim =>
              if ctx.currentSlot > current_claim.block_commitment then
                ({ createdClaimAccount := created,
                   transfers := [⟨ctx.claimAcct.key, ctx.claimerAcct.key, meta.stake⟩,
                                 ⟨ctx.claimerAcct.key, ctx.claimAcct.key, meta.stake⟩],
                   savedClaim := some (ClaimStateV1.from_claim_ix ctx.claimerAcct.key
                     ctx.currentSlot meta.block_commitment),
                   closure := none }, PResult.ok ())
              else
                ({ emptyClaimEffects with
                   createdClaimAccount := created,
                   transfers := [⟨ctx.claimAcct.key, ctx.claimerAcct.key, meta.stake⟩] },
                 PResult.err ChannelError.ActiveClaimExists)
          else
            ({ createdClaimAccount := created,
               transfers := [⟨ctx.claimerAcct.key, ctx.claimAcct.key, meta.stake⟩],
               savedClaim := some (ClaimStateV1.from_claim_ix ctx.claimerAcct.key
                 ctx.currentSlot meta.block_commitment),
               closure := none }, PResult.ok ())

/-- One trailing account of the admission call as execute.rs uses it: the
result of parsing its data as an input set and taking the length of the
declared input list (a parse failure and a missing input list both make the
flat-map closure return an error that the iterator silently drops). -/
structure ExtraAcct where
  inputSetLen : Option Nat
deriving DecidableEq

/-- Inputs of one admission call (execute.rs `process_execute_v1`). -/
structure ExecCtx where
  requesterAcct : AccountInfo
  payerAcct : AccountInfo
  executorAcct : AccountInfo
  deploymentAcct : AccountInfo
  callbackAcct : AccountInfo
  account5 : AccountInfo
  er : Option ExecutionRequestV1
  deploy : Option DeployV1
  extra : List ExtraAcct
  programId : Pubkey
  systemProgramId : Pubkey
  bpfLoaderId : Pubkey
  execPdaOk : Bool
deriving DecidableEq

/-- Ledger-primitive trace of one admission call: whether the serialized
request record was written at the derived address. -/
structure ExecEffects where
  requestCreated : Bool
deriving DecidableEq

/-- Embedding of execute.rs `validate_er` (lines 62-71): a zero max height and
a missing input digest under `verify_input_hash` are rejected.  Note that
`process_execute_v1` never calls this function. -/
def validate_er (er : ExecutionRequestV1) : Except ChannelError Unit :=
  if er.max_block_height = 0 then Except.error ChannelError.MaxBlockHeightRequired
  else if er.verify_input_hash = true ∧ er.input_digest = none then
    Except.error ChannelError.InputDigestRequired
  else Except.ok ()

/-- The flat-map body of execute.rs `validate_inputs` (lines 95-112) over the
InputSet-typed inputs, in iteration order: unwrap the first data byte (a
missing byte panics), subtract the fixed base 6 with release-mode wrapping u8
arithmetic, unwrap the lookup of the referenced trailing account (an
out-of-range index panics), and sum the accounts' declared input counts; a
parse failure of the referenced account contributes nothing because the
iterator drops the closure's error value. -/
def resolve_sets (extra : List ExtraAcct) : List InputV1 → PResult Nat
  | [] => PResult.ok 0
  | i :: rest =>
    match i.data with
    | none => PResult.panicked
    | some bs =>
      match bs.head? with
      | none => PResult.panicked
      | some index =>
        match extra.get? ((index + 250) % 256) with
        | none => PResult.panicked
        | some acct =>
          match acct.inputSetLen with
          | none => resolve_sets extra rest
          | some n =>
            match resolve_sets extra rest with
            | PResult.ok m => PResult.ok (n + m)
            | PResult.err e => PResult.err e
            | PResult.panicked => PResult.panicked

/-- Embedding of execute.rs `validate_inputs` (lines 73-119): reject a missing
input list, reject any PrivateLocal input, resolve the InputSet inputs that
carry data, and require that the inline inputs plus the resolved counts equal
the deployment's declared input count. -/
def validate_inputs (er : ExecutionRequestV1) (required_input_size : Nat)
    (extra : List ExtraAcct) : PResult Unit :=
  match er.input with
  | none => PResult.err ChannelError.InvalidInputs
  | some inputs =>
    if 0 < (inputs.filter fun i => i.input_type = InputType.PrivateLocal).length then
      PResult.err ChannelError.InvalidInputType
    else
      match resolve_sets extra
          (inputs.filter fun i =>
            i.data.isSome && decide (i.input_type = InputType.InputSet)) with
      | PResult.panicked => PResult.panicked
      | PResult.err e => PResult.err e
      | PResult.ok input_set =>
        if inputs.length -
            (inputs.filter fun i =>
              i.data.isSome && decide (i.input_type = InputType.InputSet)).length +
            input_set ≠ required_input_size then
          PResult.err ChannelError.InvalidInputs
        else PResult.ok ()

/-- Embedding of execute.rs `check_execution_accounts` (lines 22-60): requester
and payer writable signers; executor writable, system-owned, unoccupied;
deployment owned by this program; account 5 must equal the system program and
(same account, as in the source) must either be this program's key or be owned
by the upgradeable loader. -/
def check_execution_accounts (ctx : ExecCtx) : Except ChannelError Unit := do
  check_writable_signer ctx.requesterAcct ChannelError.InvalidRequesterAccount
  check_writable_signer ctx.payerAcct ChannelError.InvalidPayerAccount
  check_writeable ctx.executorAcct ChannelError.InvalidExecutionAccount
  check_owner ctx.executorAcct ctx.systemProgramId ChannelError.InvalidExecutionAccount
  ensure_0 ctx.executorAcct ChannelError.InvalidExecutionAccount
  check_owner ctx.deploymentAcct ctx.programId ChannelError.InvalidDeploymentAccount
  check_key_match ctx.account5 ctx.systemProgramId ChannelError.InvalidInstruction
  if ctx.account5.key = ctx.programId ∨ ctx.account5.owner = ctx.bpfLoaderId then pure ()
  else throw ChannelError.InvalidCallbackAccount

/-- Embedding of execute.rs `process_execute_v1` (lines 121-168): account
checks, parse the nested execution request, require an execution id, parse the
deployment record, take its declared input count (default 1), validate the
inputs, check the derived address, and write the serialized request record.
Note that `validate_er` is never invoked on this path. -/
def process_execute_v1 (ctx : ExecCtx) : ExecEffects × PResult Unit :=
  match check_execution_accounts ctx with
  | Except.error e => (⟨false⟩, PResult.err e)
  | Except.ok _ =>
    match ctx.er with
    | none => (⟨false⟩, PResult.err ChannelError.InvalidInstruction)
    | some er =>
      match er.execution_id with
      | none => (⟨false⟩, PResult.err ChannelError.InvalidExecutionId)
      | some _eid =>
        match ctx.deploy with
        | none => (⟨false⟩, PResult.err ChannelError.InvalidDeploymentAccount)
        | some dp =>
          match validate_inputs er (dp.inputs_len.getD 1) ctx.extra with
          | PResult.panicked => (⟨false⟩, PResult.panicked)
          | PResult.err e => (⟨false⟩, PResult.err e)
          | PResult.ok _ =>
            if ctx.execPdaOk = true then (⟨true⟩, PResult.ok ())
            else (⟨false⟩, PResult.err ChannelError.InvalidExecutionAccount)

/-- An execution request with no callback configured, used as the base of the
concrete scenarios below. -/
def baseEr : ExecutionRequestV1 :=
  { execution_id := some 1, image_id := some 5, max_block_height := 100, tip := 10,
    verify_input_hash := false, input_digest := none, forward_output := false,
    callback_program_id := none, callback_instruction_prefix_bytes := none,
    callback_extra_accounts := none, prover_version := ProverVersion.V1_0_1, input := none }

/-- A 256-byte proof blob. -/
def baseProof : Bytes := List.replicate 256 0

/-- A complete status report: all five fields present, proof of length 256. -/
def baseSt : StatusV1 :=
  { execution_id := some 1, proof := some baseProof, execution_digest := some [1],
    input_digest := some [2], assumption_digest := some [3], committed_outputs := some [4],
    exit_code_system := 0, exit_code_user := 0 }

/-- A settlement call with a complete report, an unexpired request, no
callback (the callback-program account equals this program) and a verifier
that accepts. -/
def baseStatusCtx : StatusCtx :=
  { requesterKey := 1, executorKey := 10, proverKey := 9, callbackProgramKey := 99,
    extraAccounts := [], st := some baseSt, er := some baseEr, currentSlot := 50,
    programId := 99, execPdaOk := true, verifyOutcome := some true, callbackInvokeOk := true }

/-- A request demanding the input-hash assertion, whose recorded digest [1]
differs from the digest [2] the base report asserts. -/
def c3er : ExecutionRequestV1 :=
  { baseEr with verify_input_hash := true, input_digest := some [1] }

/-- Settlement call on the digest-mismatch request. -/
def c3ctx : StatusCtx := { baseStatusCtx with er := some c3er }

/-- A request whose expiry height 10 lies below the call height 50. -/
def c5er : ExecutionRequestV1 := { baseEr with max_block_height := 10 }

/-- Settlement call on the expired request. -/
def c5ctx : StatusCtx := { baseStatusCtx with er := some c5er }

/-- A request with a configured callback whose stored extra-account entry has
address 5 and writability byte 0 (not writable). -/
def c8er : ExecutionRequestV1 :=
  { baseEr with
    callback_program_id := some 42,
    callback_instruction_prefix_bytes := some [1],
    callback_extra_accounts := some [⟨5, 0⟩] }

/-- Settlement call supplying the matching address 5 but marked writable,
contradicting the stored writability byte. -/
def c8ctx : StatusCtx :=
  { baseStatusCtx with
    er := some c8er, callbackProgramKey := 42,
    extraAccounts := [⟨5, true⟩] }

/-- A report whose assumption digest is absent. -/
def c9st : StatusV1 := { baseSt with assumption_digest := none }

/-- Settlement call with the incomplete report. -/
def c9ctx : StatusCtx := { baseStatusCtx with st := some c9st }

/-- The execution request behind the claim scenarios: expiry height 200. -/
def baseClaimEr : ExecutionRequestV1 := { baseEr with max_block_height := 200 }

/-- The claim instruction payload of the concrete claim scenarios. -/
def baseClaimCl : ClaimV1 := { execution_id := some 1, block_commitment := 0 }

/-- A contested re-claim at height 150: the claim record (address 2, owned by
the program, non-empty) holds the previous claim of holder 7 taken at height
100; the caller is claimer 9. -/
def baseClaimCtx : ClaimCtx :=
  { executorAcct := ⟨10, 99, 100, 50, false, true⟩,
    requesterAcct := ⟨1, 0, 0, 0, false, false⟩,
    claimAcct := ⟨2, 99, 5, 8, false, true⟩,
    claimerAcct := ⟨9, 0, 50, 0, true, true⟩,
    payerAcct := ⟨8, 0, 100, 0, true, true⟩,
    cl := some baseClaimCl,
    execReq := some baseClaimEr,
    existingClaimData := some ⟨7, 100, 0⟩,
    currentSlot := 150,
    programId := 99, systemProgramId := 0,
    execPdaOk := true, claimPdaOk := true }

/-- The same contested re-claim attempted at height 90, inside the previous
holder's window (90 is not greater than the commitment height 100). -/
def c7ctx : ClaimCtx := { baseClaimCtx with currentSlot := 90 }

/-- A request whose expiry height 100 lies below the claim-call height 200. -/
def c4er : ExecutionRequestV1 := { baseEr with max_block_height := 100 }

/-- A claim call on the expired request with a fresh (empty, system-owned)
claim account. -/
def c4ctx : ClaimCtx :=
  { baseClaimCtx with
    execReq := some c4er, currentSlot := 200,
    claimAcct := ⟨2, 0, 0, 0, false, true⟩, existingClaimData := none }

/-- An execution-request payload with max height zero and one inline public
input. -/
def c6er : ExecutionRequestV1 :=
  { baseEr with
    max_block_height := 0,
    input := some [⟨InputType.PublicData, some [0]⟩] }

/-- An admission call that passes every account check; the deployment
declares one required input. -/
def baseExecCtx : ExecCtx :=
  { requesterAcct := ⟨1, 0, 100, 0, true, true⟩,
    payerAcct := ⟨8, 0, 100, 0, true, true⟩,
    executorAcct := ⟨10, 0, 0, 0, false, true⟩,
    deploymentAcct := ⟨11, 99, 1, 50, false, false⟩,
    callbackAcct := ⟨12, 0, 0, 0, false, false⟩,
    account5 := ⟨0, 3, 1, 0, false, false⟩,
    er := some c6er, deploy := some ⟨some 1⟩, extra := [],
    programId := 99, systemProgramId := 0, bpfLoaderId := 3, execPdaOk := true }

/-- An InputSet input whose data bytes are empty. -/
def c10aer : ExecutionRequestV1 :=
  { baseEr with input := some [⟨InputType.InputSet, some []⟩] }

/-- An InputSet input whose first data byte 3 is below the fixed base 6. -/
def c10ber : ExecutionRequestV1 :=
  { baseEr with input := some [⟨InputType.InputSet, some [3]⟩] }

/-- An InputSet input whose first data byte 7 resolves to account index 1. -/
def c10cer : ExecutionRequestV1 :=
  { baseEr with input := some [⟨InputType.InputSet, some [7]⟩] }

/-- Admission call with the empty-data InputSet input. -/
def c10actx : ExecCtx := { baseExecCtx with er := some c10aer }

/-- Admission call with the below-base InputSet index. -/
def c10bctx : ExecCtx := { baseExecCtx with er := some c10ber }

/-- Admission call whose resolved account index 1 is out of range of the
single supplied trailing account. -/
def c10cctx : ExecCtx := { baseExecCtx with er := some c10cer, extra := [⟨some 1⟩] }

theorem status_reach (ctx : StatusCtx) (st : StatusV1) (eid : Nat) (er : ExecutionRequestV1)
    (hst : ctx.st = some st) (heid : st.execution_id = some eid)
    (hpda : ctx.execPdaOk = true) (her : ctx.er = some er) :
    process_status_v1 ctx = status_core ctx st er := by
  simp [process_status_v1, hst, heid, hpda, her]

theorem status_callback_validate_ok (ctx : StatusCtx) (er : ExecutionRequestV1)
    (stored : List StoredAccount) :
    (status_callback_validate ctx er stored).2 = PResult.ok () →
    (status_callback_validate ctx er stored).1.payouts =
        [⟨ctx.executorKey, ctx.proverKey, er.tip⟩] ∧
      (status_callback_validate ctx er stored).1.closure =
        some (ctx.requesterKey, ClosureCode.Success) := by
  unfold status_callback_validate
  cases h4 : check_callback_accounts ctx.extraAccounts stored with
  | error e => intro hok; simp at hok
  | ok u => intro _; exact ⟨rfl, rfl⟩

theorem status_verified_ok (ctx : StatusCtx) (er : ExecutionRequestV1) :
    (status_verified ctx er).2 = PResult.ok () →
    (status_verified ctx er).1.payouts = [⟨ctx.executorKey, ctx.proverKey, er.tip⟩] ∧
    (status_verified ctx er).1.closure = some (ctx.requesterKey, ClosureCode.Success) := by
  unfold status_verified
  by_cases h1 : ctx.callbackProgramKey ≠ ctx.programId ∧
      er.callback_instruction_prefix_bytes.isSome = true
  · rw [if_pos h1]
    by_cases h2 : er.callback_program_id.getD ctx.programId = ctx.callbackProgramKey
    · rw [if_pos h2]
      cases h3 : er.callback_extra_accounts with
      | none => intro _; exact ⟨rfl, rfl⟩
      | some stored => exact status_callback_validate_ok ctx er stored
    · rw [if_neg h2]; intro hok; simp at hok
  · rw [if_neg h1]; intro _; exact ⟨rfl, rfl⟩

theorem build_claim_existing (ctx : ClaimCtx) (cl : ClaimV1) (eid : Nat)
    (er : ExecutionRequestV1)
    (heid : cl.execution_id = some eid) (hpda : ctx.execPdaOk = true)
    (her : ctx.execReq = some er) (hmatch : er.execution_id = some eid)
    (hsolv : ¬ ctx.claimerAcct.lamports < er.tip) (hcpda : ctx.claimPdaOk = true)
    (hocc : ¬ (ctx.claimAcct.data_len = 0 ∧ ctx.claimAcct.owner = ctx.systemProgramId))
    (hown : ctx.claimAcct.owner = ctx.programId) :
    build_claim ctx cl = PResult.ok
      (⟨eid, cl.block_commitment, true, er.tip / 2,
        decide (er.max_block_height < ctx.currentSlot)⟩, false) := by
  unfold build_claim
  simp [heid, hpda, her, hmatch, hsolv, hcpda]
  rw [if_neg hocc]
  simp [hown]

/-- C1 (confirmed, spec P4): for a settlement call that reaches the report
(the status payload, execution id, address check and request parse all
succeed), on a complete report (proof present with exactly 256 bytes, all
four digest/output fields present) of an unexpired request: if the proof
verifies and the call returns normally, the trace holds exactly one payout of
the tip from the execution record to the prover and exactly one closure of
the request with Success; if the proof fails verification, the call pays
nothing and closes the request with VerifyError. -/
theorem c1_settlement_determinism (ctx : StatusCtx) (st : StatusV1) (eid : Nat)
    (er : ExecutionRequestV1) (proof : Bytes)
    (hst : ctx.st = some st) (heid : st.execution_id = some eid)
    (hpda : ctx.execPdaOk = true) (her : ctx.er = some er)
    (hnotexp : ¬ er.max_block_height < ctx.currentSlot)
    (hproof : st.proof = some proof) (hlen : proof.length = 256)
    (hexe : st.execution_digest.isSome = true)
    (hasu : st.assumption_digest.isSome = true)
    (hinp : st.input_digest.isSome = true)
    (hcom : st.committed_outputs.isSome = true) :
    (verify_with_prover er ctx = some true →
      (process_status_v1 ctx).2 = PResult.ok () →
      (process_status_v1 ctx).1.payouts = [⟨ctx.executorKey, ctx.proverKey, er.tip⟩] ∧
      (process_status_v1 ctx).1.closure = some (ctx.requesterKey, ClosureCode.Success)) ∧
    (verify_with_prover er ctx = some false →
      process_status_v1 ctx =
        ({ payouts := [], closure := some (ctx.requesterKey, ClosureCode.VerifyError),
           callbackInvoked := false }, PResult.ok ())) := by
  have hreach := status_reach ctx st eid er hst heid hpda her
  have hfilter : st.proof.filter (fun x => x.length == 256) = some proof := by
    rw [hproof]; simp [Option.filter, hlen]
  obtain ⟨exed, he⟩ := Option.isSome_iff_exists.mp hexe
  obtain ⟨asud, ha⟩ := Option.isSome_iff_exists.mp hasu
  obtain ⟨ind, hi⟩ := Option.isSome_iff_exists.mp hinp
  obtain ⟨co, hc⟩ := Option.isSome_iff_exists.mp hcom
  constructor
  · intro hv hok
    rw [hreach] at hok ⊢
    unfold status_core at hok ⊢
    rw [if_neg hnotexp] at hok ⊢
    rw [hfilter, he, ha, hi, hc] at hok ⊢
    simp only [hlen, hv, if_pos] at hok ⊢
    exact status_verified_ok ctx er hok
  · intro hv
    rw [hreach]
    unfold status_core
    rw [if_neg hnotexp, hfilter, he, ha, hi, hc]
    simp [hlen, hv]

set_option maxRecDepth 8192 in
/-- C1 witness: on the concrete accepting settlement call, the trace holds
the single tip payout and the Success closure. -/
theorem c1_settlement_determinism_witness :
    (process_status_v1 baseStatusCtx).1.payouts = [⟨10, 9, 10⟩] ∧
    (process_status_v1 baseStatusCtx).1.closure = some (1, ClosureCode.Success) :=
  (c1_settlement_determinism baseStatusCtx baseSt 1 baseEr baseProof rfl rfl rfl rfl
    (by decide) rfl (by decide) rfl rfl rfl rfl).1 rfl (by decide)

/-- C2 (code bug): on the concrete contested re-claim with elapsed window,
the stake refund transfer leaves the claim record towards the new claimant
(key 9), not towards the previous holder (key 7) stored in the existing claim
record; no transfer in the trace targets the previous holder. -/
theorem c2_reclaim_refund_goes_to_new_claimant :
    process_claim_v1 baseClaimCtx =
      ({ createdClaimAccount := false,
         transfers := [⟨2, 9, 5⟩, ⟨9, 2, 5⟩],
         savedClaim := some ⟨9, 150, 0⟩,
         closure := none }, PResult.ok ()) ∧
    baseClaimCtx.existingClaimData = some ⟨7, 100, 0⟩ ∧
    (∀ t ∈ (process_claim_v1 baseClaimCtx).1.transfers, t.dest ≠ 7) := by decide

set_option maxRecDepth 8192 in
/-- C3 (code bug): on the concrete settlement call whose request sets
`verify_input_hash` with recorded digest [1] while the report asserts digest
[2], the computed mismatch check yields the InputsDontMatch error yet the call
still pays the tip and closes the request with Success. -/
theorem c3_input_hash_mismatch_ignored :
    process_status_v1 c3ctx =
      ({ payouts := [⟨10, 9, 10⟩], closure := some (1, ClosureCode.Success),
         callbackInvoked := false }, PResult.ok ()) ∧
    c3er.verify_input_hash = true ∧ c3er.input_digest = some [1] ∧
    baseSt.input_digest = some [2] ∧
    input_hash_check c3er [2] = some (Except.error ChannelError.InputsDontMatch) := by decide

/-- C4 (code bug): on the concrete claim call past the request's expiry
height, the claim account does get created, and the request record is closed
with the Expired code refunding to the claimer (key 9), not to the requester
(key 1); the call returns normally. -/
theorem c4_expired_claim_closes_to_claimer :
    process_claim_v1 c4ctx =
      ({ createdClaimAccount := true, transfers := [], savedClaim := none,
         closure := some (9, ClosureCode.Expired) }, PResult.ok ()) ∧
    c4ctx.claimerAcct.key = 9 ∧ c4ctx.requesterAcct.key = 1 ∧
    c4er.max_block_height < c4ctx.currentSlot := by decide

set_option maxRecDepth 8192 in
/-- C5 counterexample: on the concrete expired settlement call the handler
returns the ExecutionExpired error and closes nothing, contradicting the
claim that expiry closes the request as a successful terminal transition. -/
theorem c5_counterexample :
    (process_status_v1 c5ctx).2 = PResult.err ChannelError.ExecutionExpired ∧
    (process_status_v1 c5ctx).1.closure = none ∧
    c5er.max_block_height < c5ctx.currentSlot := by decide

/-- C5 (corrected): for every settlement call that reaches the expiry check
with current height above the request's max height, the call aborts with the
ExecutionExpired caller error before touching any proof material; the request
record is not closed and no ledger primitive is invoked. -/
theorem c5_expiry_is_error_not_closure (ctx : StatusCtx) (st : StatusV1) (eid : Nat)
    (er : ExecutionRequestV1)
    (hst : ctx.st = some st) (heid : st.execution_id = some eid)
    (hpda : ctx.execPdaOk = true) (her : ctx.er = some er)
    (hexp : er.max_block_height < ctx.currentSlot) :
    process_status_v1 ctx = (emptyStatusEffects, PResult.err ChannelError.ExecutionExpired) := by
  rw [status_reach ctx st eid er hst heid hpda her]
  unfold status_core
  rw [if_pos hexp]

set_option maxRecDepth 8192 in
/-- C5 witness: the amended expiry behaviour at the concrete expired call. -/
theorem c5_expiry_is_error_not_closure_witness :
    process_status_v1 c5ctx = (emptyStatusEffects, PResult.err ChannelError.ExecutionExpired) :=
  c5_expiry_is_error_not_closure c5ctx baseSt 1 c5er rfl rfl rfl rfl (by decide)

/-- C6 (code bug): the concrete admission call whose payload has max height
zero succeeds and writes the request record, although the (never invoked)
`validate_er` rejects exactly that payload with MaxBlockHeightRequired. -/
theorem c6_zero_max_height_admitted :
    (process_execute_v1 baseExecCtx).2 = PResult.ok () ∧
    (process_execute_v1 baseExecCtx).1.requestCreated = true ∧
    baseExecCtx.er = some c6er ∧ c6er.max_block_height = 0 ∧
    validate_er c6er = Except.error ChannelError.MaxBlockHeightRequired := by decide

/-- C7 counterexample: on the concrete re-claim inside the active window the
call does fail with ActiveClaimExists, but the trace already holds a transfer
of the stake amount out of the claim record, contradicting the claim that no
value leaves the claim record before the error. -/
theorem c7_counterexample :
    (process_claim_v1 c7ctx).2 = PResult.err ChannelError.ActiveClaimExists ∧
    (process_claim_v1 c7ctx).1.transfers = [⟨2, 9, 5⟩] ∧
    c7ctx.currentSlot = 90 ∧ c7ctx.existingClaimData = some ⟨7, 100, 0⟩ := by decide

/-- C7 (corrected): a contested re-claim inside the active window (current
height not above the stored commitment height) fails with ActiveClaimExists,
writes no claim state, creates no account and closes nothing, but it first
invokes one ledger transfer of the stake amount from the claim record to the
calling claimer; the surrounding transaction's atomicity is what discards
that transfer, not the handler. -/
theorem c7_active_claim_error_after_transfer (ctx : ClaimCtx) (cl : ClaimV1) (eid : Nat)
    (er : ExecutionRequestV1) (current_claim : ClaimStateV1)
    (hacc : check_accounts_claim ctx = Except.ok ()) (hcl : ctx.cl = some cl)
    (heid : cl.execution_id = some eid) (hpda : ctx.execPdaOk = true)
    (her : ctx.execReq = some er) (hmatch : er.execution_id = some eid)
    (hsolv : ¬ ctx.claimerAcct.lamports < er.tip) (hcpda : ctx.claimPdaOk = true)
    (hocc : ¬ (ctx.claimAcct.data_len = 0 ∧ ctx.claimAcct.owner = ctx.systemProgramId))
    (hown : ctx.claimAcct.owner = ctx.programId)
    (hnexp : ¬ er.max_block_height < ctx.currentSlot)
    (hcur : ctx.existingClaimData = some current_claim)
    (hwin : ¬ ctx.currentSlot > current_claim.block_commitment) :
    process_claim_v1 ctx =
      ({ createdClaimAccount := false,
         transfers := [⟨ctx.claimAcct.key, ctx.claimerAcct.key, er.tip / 2⟩],
         savedClaim := none, closure := none }, PResult.err ChannelError.ActiveClaimExists) := by
  have hb := build_claim_existing ctx cl eid er heid hpda her hmatch hsolv hcpda hocc hown
  have hdf : decide (er.max_block_height < ctx.currentSlot) = false := decide_eq_false hnexp
  unfold process_claim_v1
  simp [hacc, hcl, heid, hb, hdf, hcur, hwin, emptyClaimEffects]

/-- C7 witness: the amended behaviour at the concrete in-window re-claim. -/
theorem c7_active_claim_error_after_transfer_witness :
    process_claim_v1 c7ctx =
      ({ createdClaimAccount := false, transfers := [⟨2, 9, 5⟩],
         savedClaim := none, closure := none }, PResult.err ChannelError.ActiveClaimExists) :=
  c7_active_claim_error_after_transfer c7ctx baseClaimCl 1 baseClaimEr ⟨7, 100, 0⟩
    rfl rfl rfl rfl rfl rfl (by decide) rfl (by decide) rfl (by decide) rfl (by decide)

set_option maxRecDepth 8192 in
/-- C8 (code bug): on the concrete settlement call with a configured callback
whose stored account entry is non-writable (byte 0) while the supplied account
is writable, validation does not abort: the call proceeds to the payout and
the Success closure, because the source negates the stored byte bitwise before
comparing it with 0. -/
theorem c8_callback_writability_mismatch_passes :
    process_status_v1 c8ctx =
      ({ payouts := [⟨10, 9, 10⟩], closure := some (1, ClosureCode.Success),
         callbackInvoked := true }, PResult.ok ()) ∧
    c8er.callback_extra_accounts = some [⟨5, 0⟩] ∧
    c8ctx.extraAccounts = [⟨5, true⟩] := by decide

/-- C9 (confirmed): for a settlement call that reaches the report on an
unexpired request, if any of the five report fields is absent (the proof
counting as present only when exactly 256 bytes long), the request is closed
with ProvingError, with no payout and no callback. -/
theorem c9_report_incomplete_proving_error (ctx : StatusCtx) (st : StatusV1) (eid : Nat)
    (er : ExecutionRequestV1)
    (hst : ctx.st = some st) (heid : st.execution_id = some eid)
    (hpda : ctx.execPdaOk = true) (her : ctx.er = some er)
    (hnotexp : ¬ er.max_block_height < ctx.currentSlot)
    (hmiss : st.proof.filter (fun x => x.length == 256) = none ∨
      st.execution_digest = none ∨ st.assumption_digest = none ∨
      st.input_digest = none ∨ st.committed_outputs = none) :
    process_status_v1 ctx =
      ({ payouts := [], closure := some (ctx.requesterKey, ClosureCode.ProvingError),
         callbackInvoked := false }, PResult.ok ()) := by
  rw [status_reach ctx st eid er hst heid hpda her]
  unfold status_core
  rw [if_neg hnotexp]
  split
  · simp_all
  · rfl

set_option maxRecDepth 8192 in
/-- C9 witness: the report missing its assumption digest closes the request
with ProvingError and no payout. -/
theorem c9_report_incomplete_proving_error_witness :
    process_status_v1 c9ctx =
      ({ payouts := [], closure := some (1, ClosureCode.ProvingError),
         callbackInvoked := false }, PResult.ok ()) :=
  c9_report_incomplete_proving_error c9ctx c9st 1 baseEr rfl rfl rfl rfl (by decide)
    (Or.inr (Or.inr (Or.inl rfl)))

set_option maxRecDepth 8192 in
/-- C10 (confirmed): admission is not total - each of the three InputSet
shapes (empty data bytes, first byte below the base 6, resolved account index
out of range) drives `process_execute_v1` into a panic instead of a typed
error. -/
theorem c10_validate_inputs_panics :
    ((process_execute_v1 c10actx).2 = PResult.panicked ∧
      c10aer.input = some [⟨InputType.InputSet, some []⟩]) ∧
    ((process_execute_v1 c10bctx).2 = PResult.panicked ∧
      c10ber.input = some [⟨InputType.InputSet, some [3]⟩]) ∧
    ((process_execute_v1 c10cctx).2 = PResult.panicked ∧
      c10cer.input = some [⟨InputType.InputSet, some [7]⟩] ∧
      c10cctx.extra = [⟨some 1⟩]) := by decide

end Bonsol
